import Mathlib

/-!
# Verification of the coherent_benchmarks orchestration / runner / aggregation code

Shallow embedding of the Python sources:

* `src/benchmarks/numbacs_benchmarks_ftle.py` (`run_numbacs_predefined_ftle`,
  `run_numbacs_data_ftle`)
* `src/benchmarks/dynlab_benchmark_ftle.py` (`run_dynlab_ftle`)
* `src/readme_updater.py` (`load_benchmark_data`, `_speedup_col_fmt`,
  `generate_md_tables`, `assemble_and_update_readme`)
* `noxfile.py` (benchmark session dispatch for the external-interpreter family)
* `runners/matlab_runner.py` (`run_matlab_benchmark`, `main`)
* `runners/numbacs_runner.py` (error-document output-path recovery)

Modeling conventions, used throughout:

* IEEE-754 double arithmetic is modeled as exact rational arithmetic (`ℚ`).
  Where the Python code can produce non-finite floats and the control flow
  depends on it (the pandas speedup column), floats are modeled by the
  inductive `PFloat` with explicit `inf` / `ninf` / `nan` constructors and
  the numpy division-by-zero rules.
* Wall-clock measurement (`time.perf_counter`) is nondeterministic; each
  embedded runner takes the measured warmup duration and a function
  `loop_duration : ℕ → ℚ` giving the measured duration of outer benchmark
  run `i`.  The source reads the timer exactly once around each outer run
  (the inner iterate loop is untimed), which is reflected by consuming one
  oracle value per outer run.
* The numerical work itself (flow-map integration, FTLE fields, `np.load`,
  interpolant construction) is an opaque computation per the repository
  design; it contributes nothing observable except the measured durations,
  and it is assumed not to raise.
* Python dictionaries whose key SET drives control flow (`flow_data`) are
  modeled by their key list; values that the control flow inspects are
  passed separately (`flow_str` for the dynlab runner).
* `metadata` is modeled as a record with the four fields the orchestrator
  (`noxfile.py` lines 135-140) always supplies.
* A raised Python exception is `Except.error`; a normal return that wrote
  the result JSON is `Except.ok` carrying the written document.
* numpy `std` returns the nonnegative square root of the population
  variance.  To stay inside `ℚ` the embedded documents store the SQUARE of
  each reported std (`std_loop_time_sq`, `std_per_iter_time_sq`); a
  nonnegative real is determined by its square, so "std == 0.0" is
  equivalent to "std_sq == 0" and "std equals the population standard
  deviation of the samples" is equivalent to "std_sq equals the population
  variance of the samples".
-/

namespace CoherentBenchmarks

/-- The `metadata` dict constructed in `noxfile.py` lines 135-140 and passed
through every runner: the four keys are always present. -/
structure Metadata where
  package_name : String
  case_id : String
  case_description : String
  case_flow_type : String
deriving DecidableEq, Repr

/-- A non-empty `error_data` dict.  Its `true_data` / `t0` members feed the
opaque warmup computation; `mae_result` is the value the opaque
`MAE(ftle_true, ftle_est, edge=False)` call returns, and `error_params` the
`error_data['error_params']` entry copied into the document. -/
structure ErrorData where
  mae_result : ℚ
  error_params : String
deriving DecidableEq, Repr

/-- The `results['error']` object: `{'mae': mae, 'error_params': ...}`. -/
structure ErrorInfo where
  mae : ℚ
  error_params : String
deriving DecidableEq, Repr

/-- The `results['parameters']` object (both runner files, identical). -/
structure BenchParams where
  iterates_per_run : ℤ
  num_benchmark_runs : ℤ
deriving DecidableEq, Repr

/-- The `timing_data` dict.  `loop_times` / `per_iter_times` are only present
in the `num_benchmark_runs > 1` branch (`Option`).  The two std entries
store the squares of the reported values (see the header comment). -/
structure TimingData where
  warmup_time : ℚ
  loop_times : Option (List ℚ)
  per_iter_times : Option (List ℚ)
  mean_loop_time : ℚ
  mean_per_iter_time : ℚ
  std_loop_time_sq : ℚ
  std_per_iter_time_sq : ℚ
deriving DecidableEq, Repr

/-- The full result document written by `json.dump(results, f)`. -/
structure ResultDoc where
  parameters : BenchParams
  timings : TimingData
  error : Option ErrorInfo
  metadata : Metadata
deriving DecidableEq, Repr

/-- The exceptions the embedded benchmark bodies can raise. -/
inductive BenchError where
  /-- `ValueError(f"The dict 'flow_data' must contain the following keys: {req_keys}")`:
  the payload is the required-key set the message names. -/
  | missingKeys (req : List String)
  /-- `ValueError` for an unsupported dynlab flow string. -/
  | badFlow (flow_str : String)
  /-- `ValueError("num_benchmark_runs must be at least 1")`. -/
  | invalidRuns
  /-- Python scalar float division by zero (`loop_time/iterates_per_run`
  with `iterates_per_run == 0` in the single-run branch). -/
  | zeroDivision
deriving DecidableEq, Repr

instance exceptDecEq {ε α : Type} [DecidableEq ε] [DecidableEq α] :
    DecidableEq (Except ε α) := fun x y =>
  match x, y with
  | .ok a, .ok b => if h : a = b then .isTrue (by rw [h]) else .isFalse (by simp [h])
  | .error e, .error f => if h : e = f then .isTrue (by rw [h]) else .isFalse (by simp [h])
  | .ok _, .error _ => .isFalse (by simp)
  | .error _, .ok _ => .isFalse (by simp)

/-- `np.mean` over a list of (finite) floats, as exact rational arithmetic. -/
def npMean (xs : List ℚ) : ℚ := xs.sum / xs.length

/-- The square of `np.std` (default `ddof=0`): the population variance. -/
def npVarP (xs : List ℚ) : ℚ := ((xs.map fun x => (x - npMean xs) ^ 2).sum) / xs.length

/-- Lines 65-147 of `numbacs_benchmarks_ftle.py`, which are verbatim-identical
to lines 81-167 of `dynlab_benchmark_ftle.py` and lines 211-302 of
`numbacs_benchmarks_ftle.py` (`run_numbacs_data_ftle`): the warmup, the
benchmark loops, the statistics and the document assembly shared by all
three runner bodies.

In the `num_benchmark_runs > 1` branch the numpy array division
`loop_times/iterates_per_run` does not raise on a zero divisor (it yields
IEEE non-finite values, outside this rational model); in the
`num_benchmark_runs == 1` branch the scalar division
`loop_time/iterates_per_run` raises `ZeroDivisionError` on a zero divisor,
modeled by `BenchError.zeroDivision`. -/
def ftle_benchmark_core (iterates_per_run num_benchmark_runs : ℤ)
    (error_data : Option ErrorData) (metadata : Metadata)
    (warmup_time : ℚ) (loop_duration : ℕ → ℚ) : Except BenchError ResultDoc :=
  let parameters : BenchParams :=
    { iterates_per_run := iterates_per_run, num_benchmark_runs := num_benchmark_runs }
  -- warmup: one untimed (for statistics) execution; with `error_data` the MAE
  -- computed from it is stored under `results['error']`.
  let error : Option ErrorInfo :=
    error_data.map fun ed => { mae := ed.mae_result, error_params := ed.error_params }
  if num_benchmark_runs > 1 then
    -- `loop_times[i]` is measured once around outer run `i`; the inner
    -- `for k in range(iterates_per_run)` loop is untimed.
    let loop_times : List ℚ := (List.range num_benchmark_runs.toNat).map loop_duration
    let per_iter_times : List ℚ := loop_times.map fun t => t / (iterates_per_run : ℚ)
    .ok { parameters := parameters
          timings :=
            { warmup_time := warmup_time
              loop_times := some loop_times
              per_iter_times := some per_iter_times
              mean_loop_time := npMean loop_times
              mean_per_iter_time := npMean per_iter_times
              std_loop_time_sq := npVarP loop_times
              std_per_iter_time_sq := npVarP per_iter_times }
          error := error
          metadata := metadata }
  else if num_benchmark_runs < 1 then
    .error .invalidRuns
  else
    let loop_time : ℚ := loop_duration 0
    if iterates_per_run = 0 then
      .error .zeroDivision
    else
      .ok { parameters := parameters
            timings :=
              { warmup_time := warmup_time
                loop_times := none
                per_iter_times := none
                mean_loop_time := loop_time
                mean_per_iter_time := loop_time / (iterates_per_run : ℚ)
                std_loop_time_sq := 0
                std_per_iter_time_sq := 0 }
            error := error
            metadata := metadata }

/-- The required-key set of `run_numbacs_predefined_ftle`
(`numbacs_benchmarks_ftle.py` line 43). -/
def req_keys_numbacs_predefined : List String := ["flow_str", "grid_shape", "t0", "T", "dt0"]

/-- The required-key set of `run_numbacs_data_ftle`
(`numbacs_benchmarks_ftle.py` line 187). -/
def req_keys_numbacs_data : List String :=
  ["flow_str", "vel_data_paths", "domain", "t0", "T", "dt0"]

/-- The required-key set of `run_dynlab_ftle`
(`dynlab_benchmark_ftle.py` line 51). -/
def req_keys_dynlab : List String := ["flow_str", "domain", "grid_shape", "t0", "T", "dt0"]

/-- `req_keys.issubset(flow_data.keys())`. -/
def keysSubset (req keys : List String) : Bool := req.all fun k => keys.contains k

/-- `run_numbacs_predefined_ftle` (`numbacs_benchmarks_ftle.py` lines 11-147).
`flow_keys` is the key list of the `flow_data` dict; the flow itself is the
opaque computation. -/
def run_numbacs_predefined_ftle (flow_keys : List String)
    (iterates_per_run num_benchmark_runs : ℤ)
    (error_data : Option ErrorData) (metadata : Metadata)
    (warmup_time : ℚ) (loop_duration : ℕ → ℚ) : Except BenchError ResultDoc :=
  if !(keysSubset req_keys_numbacs_predefined flow_keys) then
    .error (.missingKeys req_keys_numbacs_predefined)
  else
    ftle_benchmark_core iterates_per_run num_benchmark_runs error_data metadata
      warmup_time loop_duration

/-- `run_numbacs_data_ftle` (`numbacs_benchmarks_ftle.py` lines 150-302).
The `np.load` of the velocity data and the interpolant construction are
opaque computations. -/
def run_numbacs_data_ftle (flow_keys : List String)
    (iterates_per_run num_benchmark_runs : ℤ)
    (error_data : Option ErrorData) (metadata : Metadata)
    (warmup_time : ℚ) (loop_duration : ℕ → ℚ) : Except BenchError ResultDoc :=
  if !(keysSubset req_keys_numbacs_data flow_keys) then
    .error (.missingKeys req_keys_numbacs_data)
  else
    ftle_benchmark_core iterates_per_run num_benchmark_runs error_data metadata
      warmup_time loop_duration

/-- `run_dynlab_ftle` (`dynlab_benchmark_ftle.py` lines 11-167).  `flow_str`
is the value of `flow_data['flow_str']`; only `'double_gyre'` and
`'bickley_jet'` (case-insensitively) are accepted, anything else raises
`ValueError` (lines 55-64). `num_threads` only parameterizes the opaque
FTLE computation. -/
def run_dynlab_ftle (flow_keys : List String) (flow_str : String)
    (iterates_per_run num_benchmark_runs : ℤ) (num_threads : ℤ)
    (error_data : Option ErrorData) (metadata : Metadata)
    (warmup_time : ℚ) (loop_duration : ℕ → ℚ) : Except BenchError ResultDoc :=
  if !(keysSubset req_keys_dynlab flow_keys) then
    .error (.missingKeys req_keys_dynlab)
  else if flow_str.toLower ≠ "double_gyre" ∧ flow_str.toLower ≠ "bickley_jet" then
    .error (.badFlow flow_str)
  else
    -- `num_threads` configures the opaque `FTLE(num_threads=...)` provider.
    ftle_benchmark_core iterates_per_run num_benchmark_runs error_data metadata
      warmup_time loop_duration

/-! ## Result aggregation (`src/readme_updater.py`) -/

/-- A JSON value, as loaded by `json.load`. -/
inductive JVal where
  | jstr (s : String)
  | jnum (q : ℚ)
  | jbool (b : Bool)
  | jobj (fields : List (String × JVal))
  | jarr (elems : List JVal)

/-- Dictionary lookup on the field list of a JSON object. -/
def lookupField : List (String × JVal) → String → Option JVal
  | [], _ => none
  | (k, v) :: rest, key => if k = key then some v else lookupField rest key

/-- `data[k]` / `data.get(k)` on a JSON value (returns `none` when the value
is not an object or the key is absent). -/
def JVal.lookup : JVal → String → Option JVal
  | .jobj fields, k => lookupField fields k
  | _, _ => none

/-- Python `int(...)` on a float: truncation toward zero. -/
def pyTrunc (q : ℚ) : ℤ := if 0 ≤ q then ⌊q⌋ else -⌊-q⌋

/-- `case_id.replace("_", " ").upper()` (`readme_updater.py` line 43). -/
def underscoreToSpaceUpper (s : String) : String :=
  (s.map fun c => if c = '_' then ' ' else c).toUpper

/-- One flat record of `load_benchmark_data` (`readme_updater.py` lines
39-50).  `none` in `std_iter_s` / `mae` models the `np.nan` default taken
when the source key is absent (`pd.notna` is false exactly there). -/
structure AggRecord where
  package : String
  case_id : String
  case_description : String
  iterates_per_run : ℤ
  num_benchmark_runs : ℤ
  mean_iter_s : ℚ
  std_iter_s : Option ℚ
  mae : Option ℚ
deriving DecidableEq, Repr

/-- `v[k]` raising `KeyError` when absent. -/
def getField (v : JVal) (k : String) : Except String JVal :=
  match v.lookup k with
  | none => Except.error ("KeyError: " ++ k)
  | some x => Except.ok x

/-- `v[k]` expected to be a string. -/
def getStr (v : JVal) (k : String) : Except String String :=
  match v.lookup k with
  | none => Except.error ("KeyError: " ++ k)
  | some (.jstr s) => Except.ok s
  | some _ => Except.error ("TypeError: " ++ k)

/-- `v[k]` expected to be a number (`int(...)` / `float(...)` of a JSON
number succeeds; of other shapes it raises, modeled as an error). -/
def getNum (v : JVal) (k : String) : Except String ℚ :=
  match v.lookup k with
  | none => Except.error ("KeyError: " ++ k)
  | some (.jnum q) => Except.ok q
  | some _ => Except.error ("TypeError: " ++ k)

/-- The record construction of `load_benchmark_data` (`readme_updater.py`
lines 37-50).  Any raised `KeyError`/`TypeError` is the per-file exception
that the surrounding `try/except` catches, skipping the file. -/
def parseRecord (data : JVal) : Except String AggRecord := do
  let metadata ← getField data "metadata"
  let params ← getField data "parameters"
  let timing_data ← getField data "timings"
  let package ← getStr metadata "package_name"
  let case_id ← getStr metadata "case_id"
  let case_description ←
    match metadata.lookup "case_description" with
    | some (.jstr s) => Except.ok s
    | some _ => Except.error "TypeError: case_description"
    | none => Except.ok (underscoreToSpaceUpper case_id)
  let ipr ← getNum params "iterates_per_run"
  let nbr ← getNum params "num_benchmark_runs"
  let mean ← getNum timing_data "mean_per_iter_time"
  let std_iter_s ←
    match timing_data.lookup "std_per_iter_time" with
    | none => Except.ok none
    | some (.jnum q) => Except.ok (some q)
    | some _ => Except.error "TypeError: std_per_iter_time"
  let mae ←
    match data.lookup "error_metrics" with
    | none => Except.ok none
    | some (.jobj fields) =>
      match lookupField fields "mae" with
      | none => Except.ok none
      | some (.jnum q) => Except.ok (some q)
      | some _ => Except.error "TypeError: mae"
    | some _ => Except.error "AttributeError: get"
  pure { package := package, case_id := case_id, case_description := case_description,
         iterates_per_run := pyTrunc ipr, num_benchmark_runs := pyTrunc nbr,
         mean_iter_s := mean, std_iter_s := std_iter_s, mae := mae }

/-- Split a character list at the first occurrence of `needle`:
`some (pre, post)` with `hay = pre ++ needle ++ post`, scanning left to
right, or `none` when `needle` never occurs. -/
def splitAtFirst (needle : List Char) : List Char → Option (List Char × List Char)
  | [] => if needle.isPrefixOf ([] : List Char) then some ([], []) else none
  | c :: rest =>
    if needle.isPrefixOf (c :: rest) then some ([], (c :: rest).drop needle.length)
    else (splitAtFirst needle rest).map fun pr => (c :: pr.1, pr.2)

/-- Python `needle in hay` on character lists. -/
def listContainsSub (hay needle : List Char) : Bool := (splitAtFirst needle hay).isSome

/-- Python `str.lower()` (character lists; relevant names are ASCII). -/
def lowerData (s : String) : List Char := s.data.map Char.toLower

/-- `glob.glob(os.path.join(results_dir, "*_results.json"))` keeps exactly
the file names ending in `"_results.json"` (`*` matches any, possibly
empty, run of non-separator characters). -/
def resultsGlobMatch (filename : String) : Bool :=
  "_results.json".data.isSuffixOf filename.data

/-- `load_benchmark_data` (`readme_updater.py` lines 24-57) over the
directory contents, modeled as a list of (file name, parsed JSON) pairs in
listing order: glob filter, the `"_error" in filename.lower()` skip, then
per-file record parsing where any exception skips that file alone. -/
def load_benchmark_data (files : List (String × JVal)) : List AggRecord :=
  (files.filter fun f => resultsGlobMatch f.1).filterMap fun f =>
    if listContainsSub (lowerData f.1) "_error".data then none
    else (parseRecord f.2).toOption

/-! ## Report generation (`src/readme_updater.py`) -/

/-- A pandas float64 cell: a finite value, an infinity, or NaN.  Finite
values are exact rationals (header comment). -/
inductive PFloat where
  | fin (q : ℚ)
  | inf
  | ninf
  | nan
deriving DecidableEq, Repr

/-- numpy float64 division of finite operands: a zero divisor yields a
signed infinity (or NaN for 0/0) with a warning, never an exception. -/
def npDiv (a b : ℚ) : PFloat :=
  if b ≠ 0 then .fin (a / b) else if 0 < a then .inf else if a < 0 then .ninf else .nan

/-- `pd.notnull` on a float: false exactly on NaN. -/
def pd_notnull : PFloat → Bool
  | .nan => false
  | _ => true

/-- Python `speedup >= 1.0` (NaN compares false). -/
def pfGe1 : PFloat → Bool
  | .fin q => decide (1 ≤ q)
  | .inf => true
  | .ninf => false
  | .nan => false

/-- Python `0.0 < speedup < 1.0` (NaN and infinities compare false). -/
def pfBetween01 : PFloat → Bool
  | .fin q => decide (0 < q) && decide (q < 1)
  | _ => false

/-- `1/speedup` in float64 arithmetic. -/
def pfRecip : PFloat → PFloat
  | .fin q => npDiv 1 q
  | .inf => .fin 0
  | .ninf => .fin 0
  | .nan => .nan

/-- Round a rational to the nearest integer, ties to even — the rounding
CPython applies when formatting a double with `.2f` (applied here to the
exact value; the double's prior binary rounding is outside the model). -/
def roundHalfEven (x : ℚ) : ℤ :=
  let f := ⌊x⌋
  let r := x - f
  if r < 1 / 2 then f
  else if 1 / 2 < r then f + 1
  else if f % 2 = 0 then f else f + 1

/-- Two-digit zero-padded fraction part. -/
def padTwo (n : ℕ) : String := if n < 10 then "0" ++ toString n else toString n

/-- `f"{q:.2f}"` for a finite float value. -/
def pyFixed2 (q : ℚ) : String :=
  let cents := roundHalfEven (100 * q)
  if cents < 0 then
    "-" ++ toString ((-cents).toNat / 100) ++ "." ++ padTwo ((-cents).toNat % 100)
  else
    toString (cents.toNat / 100) ++ "." ++ padTwo (cents.toNat % 100)

/-- `f"{speedup:.2f}"` on a pandas float (CPython renders infinities and
NaN as `inf` / `-inf` / `nan`). -/
def pyFormat2f : PFloat → String
  | .fin q => pyFixed2 q
  | .inf => "inf"
  | .ninf => "-inf"
  | .nan => "nan"

/-- `_speedup_col_fmt` (`readme_updater.py` lines 59-69). -/
def speedup_col_fmt (speedup : PFloat) : String :=
  if pd_notnull speedup && pfGe1 speedup then
    pyFormat2f speedup
  else if pd_notnull speedup && pfBetween01 speedup then
    "(" ++ pyFormat2f (pfRecip speedup) ++ ")⁻¹"
  else
    "N/A"

/-- `SPEEDUP_BASELINE_PACKAGE` (`readme_updater.py` line 18). -/
def SPEEDUP_BASELINE_PACKAGE : String := "NumbaCS"

/-- The speedup column values of one case group (`generate_md_tables`,
`readme_updater.py` lines 108-119).  `baseline_row.iloc[0]` is the first
record whose package is the baseline; a missing baseline or a non-positive
baseline mean fills the column with `np.nan`.  `pd.to_numeric(...,
errors='coerce')` is the identity on a float column. -/
def speedup_values (group : List AggRecord) : List PFloat :=
  match group.find? fun r => r.package == SPEEDUP_BASELINE_PACKAGE with
  | none => group.map fun _ => PFloat.nan
  | some baseline_row =>
    let baseline_time := baseline_row.mean_iter_s
    if baseline_time > 0 then
      group.map fun r => npDiv baseline_time r.mean_iter_s
    else
      group.map fun _ => PFloat.nan

/-- The rendered speedup column: `_speedup_col_fmt` applied to every cell
(`readme_updater.py` lines 132-140). -/
def speedup_column (group : List AggRecord) : List String :=
  (speedup_values group).map speedup_col_fmt

/-- `speedup_col_name = f"Speedup (vs {SPEEDUP_BASELINE_PACKAGE})"`. -/
def speedup_col_name : String := "Speedup (vs " ++ SPEEDUP_BASELINE_PACKAGE ++ ")"

/-- The column list of one case group's table (`generate_md_tables`,
`readme_updater.py` lines 100-131), in the `desired_cols_order`.  The group
is the nonempty record list of one `case_id`; `num_b_runs` is
`group["num_benchmark_runs"].iloc[0]`, i.e. the first record's value.  The
`'std_iter_s' in group.columns` / `'mae' in group.columns` conjuncts are
always true (every loaded record carries both fields, possibly NaN).  The
speedup column is assigned in every branch, so it is always present. -/
def table_columns (group : List AggRecord) : List String :=
  match group with
  | [] => []
  | g0 :: _ =>
    ["Package", "Mean /Iter (s)"]
      ++ (if decide (g0.num_benchmark_runs > 1)
             && group.any (fun r => r.std_iter_s.isSome) then
            ["Std /Iter (s)"] else [])
      ++ [speedup_col_name]
      ++ (if group.any (fun r => r.mae.isSome) then ["MAE"] else [])

/-! ## README splicing (`assemble_and_update_readme`, `readme_updater.py`
lines 163-218).  Python strings are modeled as `List Char`.  The regex
`START(.*?)END` with `re.DOTALL` matches, leftmost, the first occurrence of
the literal `START` followed by the shortest run of characters up to the
next literal `END`; since any `END` occurring after a later `START` also
occurs after the first one, this equals: split at the first `START`, then
split the remainder at the first `END`. -/

/-- `BENCHMARK_SECTION_START_PLACEHOLDER` (`readme_updater.py` line 20). -/
def BENCHMARK_SECTION_START_PLACEHOLDER : List Char := "<!-- BENCHMARK_RESULTS_START -->".data

/-- `BENCHMARK_SECTION_END_PLACEHOLDER` (`readme_updater.py` line 21). -/
def BENCHMARK_SECTION_END_PLACEHOLDER : List Char := "<!-- BENCHMARK_RESULTS_END -->".data

/-- Python `str.strip()`: remove whitespace from both ends. -/
def pyStrip (s : List Char) : List Char :=
  ((s.dropWhile Char.isWhitespace).reverse.dropWhile Char.isWhitespace).reverse

/-- `pattern.search(readme_text)`: `some (pre, mid, post)` with
`readme_text = pre ++ START ++ mid ++ END ++ post`, `mid` = `match.group(2)`. -/
def findMarkers (text : List Char) : Option (List Char × List Char × List Char) :=
  match splitAtFirst BENCHMARK_SECTION_START_PLACEHOLDER text with
  | none => none
  | some (pre, rest) =>
    match splitAtFirst BENCHMARK_SECTION_END_PLACEHOLDER rest with
    | none => none
    | some (mid, post) => some (pre, mid, post)

/-- `assemble_and_update_readme`'s README update logic (`readme_updater.py`
lines 181-218), after the per-case sections have been concatenated into
`full_benchmark_content_md`.  The result carries the final on-disk document
and whether a write was performed; missing markers are the hard failure.
(The initial README read and a failing write are file-system failures
outside the model.) -/
def assemble_and_update_readme (readme_text full_benchmark_content_md : List Char) :
    Except String (List Char × Bool) :=
  match findMarkers readme_text with
  | none => .error "Master placeholders not found"
  | some (pre, _mid, post) =>
    let new_block_content : List Char :=
      BENCHMARK_SECTION_START_PLACEHOLDER ++ "\n\n".data
        ++ pyStrip full_benchmark_content_md ++ "\n\n".data
        ++ BENCHMARK_SECTION_END_PLACEHOLDER
    let updated_readme_text := pre ++ new_block_content ++ post
    if updated_readme_text = readme_text then
      .ok (readme_text, false)
    else
      .ok (pyStrip updated_readme_text ++ "\n".data, true)

/-! ## Dispatcher (`noxfile.py`) and the MATLAB runner
(`runners/matlab_runner.py`) -/

/-- Observable outcome of `session.run("python", "runners/matlab_runner.py",
...)`: the runner exits 0 on success and 1 on an internal failure or
subprocess timeout, and a non-zero exit makes nox raise `CommandFailed`
inside the session body. -/
inductive RunOutcome where
  | success
  | failure
  | timeout
deriving DecidableEq, Repr

/-- Whether the temporary on-disk run-config file exists. -/
structure TempFileState where
  cfg_exists : Bool
deriving DecidableEq, Repr

/-- The exception behavior of the `session.run` call for each outcome. -/
def session_run_matlab (outcome : RunOutcome) : Except String Unit :=
  match outcome with
  | .success => .ok ()
  | .failure => .error "CommandFailed"
  | .timeout => .error "CommandFailed (runner timed out, exited non-zero)"

/-- Python `try: body finally: final`: `final` runs whether `body` returns
or raises, and the body's exception (if any) is re-raised afterwards. -/
def pyTryFinally {α : Type} (body : Except String α)
    (final : TempFileState → TempFileState) (s : TempFileState) :
    Except String α × TempFileState :=
  (body, final s)

/-- The `finally` clause (`noxfile.py` lines 186-188):
`if os.path.exists(path): os.remove(path)`. -/
def os_remove_if_exists (s : TempFileState) : TempFileState :=
  if s.cfg_exists then { cfg_exists := false } else s

/-- The external-interpreter (`lcstool`) branch of `benchmark_session`
(`noxfile.py` lines 148-188): skip when `LCSTOOL_PATH` is unset or no
MATLAB script is mapped (no temporary file is ever created); otherwise
write the temporary config file (`NamedTemporaryFile(delete=False)`, so it
exists on disk), dispatch the runner inside `try`, and remove the file in
`finally`.  Returns the session outcome and the final temp-file state. -/
def benchmark_session_lcstool (lcstool_path_set : Bool) (matlab_script_mapped : Bool)
    (outcome : RunOutcome) : Except String Unit × TempFileState :=
  if !lcstool_path_set then
    (.ok (), { cfg_exists := false })
  else if !matlab_script_mapped then
    (.ok (), { cfg_exists := false })
  else
    let s1 : TempFileState := { cfg_exists := true }
    pyTryFinally (session_run_matlab outcome) os_remove_if_exists s1

/-- The parsed command line of `runners/matlab_runner.py` (lines 112-134).
`expected_iter_time` holds the value of the `--expected_iter_time` flag
(default 200). -/
structure MatlabArgs where
  matlab_script : String
  run_config_json_path : String
  matlab_executable : String
  expected_iter_time : ℚ
deriving DecidableEq, Repr

/-- The two fields `run_matlab_benchmark` reads back from the temporary
config file to estimate the timeout (`matlab_runner.py` lines 59-64). -/
structure MatlabRunConfig where
  iterates_per_run : ℤ
  num_benchmark_runs : ℤ
deriving DecidableEq, Repr

/-- The observable shape of the `subprocess.run` invocation. -/
structure SubprocessCall where
  executable : String
  timeout_seconds : ℚ
deriving DecidableEq, Repr

/-- `run_matlab_benchmark` (`matlab_runner.py` lines 7-109), reduced to the
subprocess invocation it builds: `timeout_seconds =
expected_iter_time*iterates*num_bench_runs + 300` (line 65), with the
iteration counts re-read from the config file (`cfg`). -/
def run_matlab_benchmark (matlab_executable : String) (cfg : MatlabRunConfig)
    (expected_iter_time : ℚ) : SubprocessCall :=
  { executable := matlab_executable
    timeout_seconds :=
      expected_iter_time * (cfg.iterates_per_run : ℚ) * (cfg.num_benchmark_runs : ℚ) + 300 }

/-- The `__main__` block of `matlab_runner.py` (lines 111-160): the call at
lines 146-150 passes only the script, config path and executable, so
`run_matlab_benchmark` receives its default `expected_iter_time=200`; the
parsed `args.expected_iter_time` is never forwarded. -/
def matlab_runner_main (args : MatlabArgs) (cfg : MatlabRunConfig) : SubprocessCall :=
  run_matlab_benchmark args.matlab_executable cfg 200

/-- The error-document output path recovery of `runners/numbacs_runner.py`
(lines 74-83): the intended `output_json_path` parsed back out of the run
config when available, else the fixed default `"numbacs_error.json"`. -/
def numbacs_error_output_path (parsed_output_json_path : Option String) : String :=
  match parsed_output_json_path with
  | some p => p
  | none => "numbacs_error.json"

/-- The per-cell results file name `f"{pkg_name}_{case_id}_results.json"`
(`noxfile.py` lines 126-129, after `pkg_name = pkg_name.lower()`), used as
`output_json_path` for ResultDocument and recovered ErrorDocument alike. -/
def noxfile_output_filename (pkg_name case_id : String) : String :=
  String.mk (lowerData pkg_name) ++ "_" ++ case_id ++ "_results.json"

/-! ## Spec-side statistics definitions (spec §8), for comparison with the
code-side `npMean` / `npVarP` fields. -/

/-- The spec's arithmetic mean of a sample list. -/
def specArithmeticMean (xs : List ℚ) : ℚ := xs.sum / xs.length

/-- The square of the spec's population standard deviation: the population
variance (mean squared deviation from the mean, divisor `n`). -/
def specPopVariance (xs : List ℚ) : ℚ :=
  (xs.map fun x => (x - specArithmeticMean xs) ^ 2).sum / xs.length

/-- The spec's per-iterate timing samples: one sample per outer repeat,
each equal to that repeat's measured wall-clock duration divided by
iterates-per-run (spec §4.2 BENCHMARK_LOOPS). -/
def specPerIterateSamples (iterates_per_run num_benchmark_runs : ℤ)
    (loop_duration : ℕ → ℚ) : List ℚ :=
  (List.range num_benchmark_runs.toNat).map fun i => loop_duration i / (iterates_per_run : ℚ)

/-! ## Helper lemmas -/

theorem ftle_benchmark_core_runs_lt_one (iterates_per_run num_benchmark_runs : ℤ)
    (error_data : Option ErrorData) (metadata : Metadata)
    (warmup_time : ℚ) (loop_duration : ℕ → ℚ) (h : num_benchmark_runs < 1) :
    ftle_benchmark_core iterates_per_run num_benchmark_runs error_data metadata
      warmup_time loop_duration = .error .invalidRuns := by
  unfold ftle_benchmark_core
  rw [if_neg (by omega), if_pos h]

theorem ftle_benchmark_core_multi (iterates_per_run num_benchmark_runs : ℤ)
    (error_data : Option ErrorData) (metadata : Metadata)
    (warmup_time : ℚ) (loop_duration : ℕ → ℚ) (h : 1 < num_benchmark_runs) :
    ftle_benchmark_core iterates_per_run num_benchmark_runs error_data metadata
        warmup_time loop_duration =
      .ok { parameters := { iterates_per_run := iterates_per_run,
                            num_benchmark_runs := num_benchmark_runs }
            timings :=
              { warmup_time := warmup_time
                loop_times := some ((List.range num_benchmark_runs.toNat).map loop_duration)
                per_iter_times := some (((List.range num_benchmark_runs.toNat).map
                  loop_duration).map fun t => t / (iterates_per_run : ℚ))
                mean_loop_time := npMean ((List.range num_benchmark_runs.toNat).map loop_duration)
                mean_per_iter_time := npMean (((List.range num_benchmark_runs.toNat).map
                  loop_duration).map fun t => t / (iterates_per_run : ℚ))
                std_loop_time_sq := npVarP ((List.range num_benchmark_runs.toNat).map loop_duration)
                std_per_iter_time_sq := npVarP (((List.range num_benchmark_runs.toNat).map
                  loop_duration).map fun t => t / (iterates_per_run : ℚ)) }
            error := error_data.map fun ed =>
              { mae := ed.mae_result, error_params := ed.error_params }
            metadata := metadata } := by
  unfold ftle_benchmark_core
  rw [if_pos h]

theorem ftle_benchmark_core_single_std (iterates_per_run : ℤ)
    (error_data : Option ErrorData) (metadata : Metadata)
    (warmup_time : ℚ) (loop_duration : ℕ → ℚ) (doc : ResultDoc)
    (h : ftle_benchmark_core iterates_per_run 1 error_data metadata
        warmup_time loop_duration = .ok doc) :
    doc.timings.std_per_iter_time_sq = 0 ∧ doc.timings.std_loop_time_sq = 0 := by
  unfold ftle_benchmark_core at h
  rw [if_neg (by omega), if_neg (by omega)] at h
  split at h
  · exact Except.noConfusion h
  · injection h with h
    subst h
    exact ⟨rfl, rfl⟩

theorem ftle_benchmark_core_ne_missingKeys (iterates_per_run num_benchmark_runs : ℤ)
    (error_data : Option ErrorData) (metadata : Metadata)
    (warmup_time : ℚ) (loop_duration : ℕ → ℚ) (l : List String) :
    ftle_benchmark_core iterates_per_run num_benchmark_runs error_data metadata
      warmup_time loop_duration ≠ .error (.missingKeys l) := by
  unfold ftle_benchmark_core
  intro h
  split at h
  · exact Except.noConfusion h
  · split at h
    · injection h with h
      exact BenchError.noConfusion h
    · split at h
      · injection h with h
        exact BenchError.noConfusion h
      · exact Except.noConfusion h

/-! ## Claims -/

/-- Claim C1, as stated, is FALSE on the code: `iterates_per_run` is never
validated.  With `iterates_per_run = -1 < 1` and `num_benchmark_runs = 1`
the invocation does not raise (the inner `range(-1)` loop is simply empty)
and a ResultDocument IS produced — here with `mean_per_iter_time = -3`. -/
theorem c1_counterexample :
    ((-1 : ℤ) < 1)
    ∧ (run_numbacs_predefined_ftle ["flow_str", "grid_shape", "t0", "T", "dt0"]
        (-1) 1 none
        { package_name := "NumbaCS", case_id := "dg_ftle",
          case_description := "Double Gyre FTLE", case_flow_type := "predefined" }
        1 fun _ => 3).isOk = true := by
  decide

/-- Claim C1 (amended): only `num_benchmark_runs < 1` fails validation — for
every runner invocation with runs-per-benchmark < 1 the invocation raises
and no ResultDocument is produced; `iterates_per_run < 1` is NOT validated
and can still yield a ResultDocument (see the counterexample). -/
theorem c1_runs_validation (flow_keys : List String) (flow_str : String)
    (iterates_per_run num_benchmark_runs num_threads : ℤ)
    (error_data : Option ErrorData) (metadata : Metadata)
    (warmup_time : ℚ) (loop_duration : ℕ → ℚ)
    (h : num_benchmark_runs < 1) :
    (run_numbacs_predefined_ftle flow_keys iterates_per_run num_benchmark_runs
        error_data metadata warmup_time loop_duration).isOk = false
    ∧ (run_numbacs_data_ftle flow_keys iterates_per_run num_benchmark_runs
        error_data metadata warmup_time loop_duration).isOk = false
    ∧ (run_dynlab_ftle flow_keys flow_str iterates_per_run num_benchmark_runs
        num_threads error_data metadata warmup_time loop_duration).isOk = false := by
  refine ⟨?_, ?_, ?_⟩
  · unfold run_numbacs_predefined_ftle
    split
    · rfl
    · rw [ftle_benchmark_core_runs_lt_one _ _ _ _ _ _ h]
      rfl
  · unfold run_numbacs_data_ftle
    split
    · rfl
    · rw [ftle_benchmark_core_runs_lt_one _ _ _ _ _ _ h]
      rfl
  · unfold run_dynlab_ftle
    split
    · rfl
    · split
      · rfl
      · rw [ftle_benchmark_core_runs_lt_one _ _ _ _ _ _ h]
        rfl

/-- Witness for `c1_runs_validation` at `num_benchmark_runs = 0`. -/
theorem c1_witness :
    (run_numbacs_predefined_ftle ["flow_str", "grid_shape", "t0", "T", "dt0"]
        5 0 none
        { package_name := "NumbaCS", case_id := "dg_ftle",
          case_description := "Double Gyre FTLE", case_flow_type := "predefined" }
        1 fun _ => 3).isOk = false :=
  (c1_runs_validation ["flow_str", "grid_shape", "t0", "T", "dt0"] "double_gyre"
    5 0 8 none
    { package_name := "NumbaCS", case_id := "dg_ftle",
      case_description := "Double Gyre FTLE", case_flow_type := "predefined" }
    1 (fun _ => 3) (by decide)).1

/-- Claim C2, as stated, is FALSE on the code: `run_numbacs_predefined_ftle`
does NOT require the `domain` key (its required set, line 43, is
`{'flow_str', 'grid_shape', 't0', 'T', 'dt0'}`; the domain comes from
`get_predefined_flow`).  A predefined `flow_data` without `domain` passes
validation and the invocation succeeds. -/
theorem c2_counterexample :
    ("domain" ∉ (["flow_str", "grid_shape", "t0", "T", "dt0"] : List String))
    ∧ (run_numbacs_predefined_ftle ["flow_str", "grid_shape", "t0", "T", "dt0"]
        2 1 none
        { package_name := "NumbaCS", case_id := "dg_ftle",
          case_description := "Double Gyre FTLE", case_flow_type := "predefined" }
        1 fun _ => 3).isOk = true := by
  decide

/-- Claim C2 (amended): the required key set depends on the runner —
numbacs-predefined requires `{flow_str, grid_shape, t0, T, dt0}`
(NO `domain`); numbacs-data requires
`{flow_str, vel_data_paths, domain, t0, T, dt0}`; dynlab (a predefined-flow
runner) requires `{flow_str, domain, grid_shape, t0, T, dt0}`.  A
configuration missing one of its runner's required keys raises a
`ValueError` naming exactly that required-key set, and a configuration
containing them never raises the missing-key error. -/
theorem c2_required_keys (flow_keys : List String) (flow_str : String)
    (iterates_per_run num_benchmark_runs num_threads : ℤ)
    (error_data : Option ErrorData) (metadata : Metadata)
    (warmup_time : ℚ) (loop_duration : ℕ → ℚ) :
    (keysSubset req_keys_numbacs_predefined flow_keys = false →
      run_numbacs_predefined_ftle flow_keys iterates_per_run num_benchmark_runs
        error_data metadata warmup_time loop_duration
        = .error (.missingKeys req_keys_numbacs_predefined))
    ∧ (keysSubset req_keys_numbacs_predefined flow_keys = true →
      ∀ l, run_numbacs_predefined_ftle flow_keys iterates_per_run num_benchmark_runs
        error_data metadata warmup_time loop_duration ≠ .error (.missingKeys l))
    ∧ (keysSubset req_keys_numbacs_data flow_keys = false →
      run_numbacs_data_ftle flow_keys iterates_per_run num_benchmark_runs
        error_data metadata warmup_time loop_duration
        = .error (.missingKeys req_keys_numbacs_data))
    ∧ (keysSubset req_keys_numbacs_data flow_keys = true →
      ∀ l, run_numbacs_data_ftle flow_keys iterates_per_run num_benchmark_runs
        error_data metadata warmup_time loop_duration ≠ .error (.missingKeys l))
    ∧ (keysSubset req_keys_dynlab flow_keys = false →
      run_dynlab_ftle flow_keys flow_str iterates_per_run num_benchmark_runs
        num_threads error_data metadata warmup_time loop_duration
        = .error (.missingKeys req_keys_dynlab))
    ∧ (keysSubset req_keys_dynlab flow_keys = true →
      ∀ l, run_dynlab_ftle flow_keys flow_str iterates_per_run num_benchmark_runs
        num_threads error_data metadata warmup_time loop_duration
        ≠ .error (.missingKeys l)) := by
  refine ⟨fun hf => ?_, fun ht l => ?_, fun hf => ?_, fun ht l => ?_, fun hf => ?_,
    fun ht l => ?_⟩
  · unfold run_numbacs_predefined_ftle
    rw [if_pos (by simp [hf])]
  · unfold run_numbacs_predefined_ftle
    rw [if_neg (by simp [ht])]
    exact ftle_benchmark_core_ne_missingKeys _ _ _ _ _ _ _
  · unfold run_numbacs_data_ftle
    rw [if_pos (by simp [hf])]
  · unfold run_numbacs_data_ftle
    rw [if_neg (by simp [ht])]
    exact ftle_benchmark_core_ne_missingKeys _ _ _ _ _ _ _
  · unfold run_dynlab_ftle
    rw [if_pos (by simp [hf])]
  · unfold run_dynlab_ftle
    rw [if_neg (by simp [ht])]
    split
    · intro h
      injection h with h
      exact BenchError.noConfusion h
    · exact ftle_benchmark_core_ne_missingKeys _ _ _ _ _ _ _

/-- Witness for `c2_required_keys`: an empty `flow_data` raises the
missing-key `ValueError` naming the numbacs-predefined required keys. -/
theorem c2_witness :
    run_numbacs_predefined_ftle [] 2 1 none
      { package_name := "NumbaCS", case_id := "dg_ftle",
        case_description := "Double Gyre FTLE", case_flow_type := "predefined" }
      1 (fun _ => 3) = .error (.missingKeys req_keys_numbacs_predefined) :=
  (c2_required_keys [] "double_gyre" 2 1 8 none
    { package_name := "NumbaCS", case_id := "dg_ftle",
      case_description := "Double Gyre FTLE", case_flow_type := "predefined" }
    1 (fun _ => 3)).1 (by decide)

/-- Claim C3: in every runner, a cell with `num_benchmark_runs = 1` that
produces a ResultDocument reports `std_per_iter_time` and `std_loop_time`
as exactly 0.0 — assigned as the constant `0.0` in the single-run branch,
never computed from the single sample.  (The document model stores the
squares of the reported std values; a reported std is 0.0 iff its square
is 0.) -/
theorem c3_single_run_std_zero (flow_keys : List String) (flow_str : String)
    (iterates_per_run num_benchmark_runs num_threads : ℤ)
    (error_data : Option ErrorData) (metadata : Metadata)
    (warmup_time : ℚ) (loop_duration : ℕ → ℚ)
    (h : num_benchmark_runs = 1) :
    (∀ doc, run_numbacs_predefined_ftle flow_keys iterates_per_run num_benchmark_runs
        error_data metadata warmup_time loop_duration = .ok doc →
      doc.timings.std_per_iter_time_sq = 0 ∧ doc.timings.std_loop_time_sq = 0)
    ∧ (∀ doc, run_numbacs_data_ftle flow_keys iterates_per_run num_benchmark_runs
        error_data metadata warmup_time loop_duration = .ok doc →
      doc.timings.std_per_iter_time_sq = 0 ∧ doc.timings.std_loop_time_sq = 0)
    ∧ (∀ doc, run_dynlab_ftle flow_keys flow_str iterates_per_run num_benchmark_runs
        num_threads error_data metadata warmup_time loop_duration = .ok doc →
      doc.timings.std_per_iter_time_sq = 0 ∧ doc.timings.std_loop_time_sq = 0) := by
  subst h
  refine ⟨fun doc hdoc => ?_, fun doc hdoc => ?_, fun doc hdoc => ?_⟩
  · unfold run_numbacs_predefined_ftle at hdoc
    split at hdoc
    · exact Except.noConfusion hdoc
    · exact ftle_benchmark_core_single_std _ _ _ _ _ _ hdoc
  · unfold run_numbacs_data_ftle at hdoc
    split at hdoc
    · exact Except.noConfusion hdoc
    · exact ftle_benchmark_core_single_std _ _ _ _ _ _ hdoc
  · unfold run_dynlab_ftle at hdoc
    split at hdoc
    · exact Except.noConfusion hdoc
    · split at hdoc
      · exact Except.noConfusion hdoc
      · exact ftle_benchmark_core_single_std _ _ _ _ _ _ hdoc

/-- Witness for `c3_single_run_std_zero`: a concrete single-run numbacs
invocation whose document reports both std squares as 0. -/
theorem c3_witness :
    ({ parameters := { iterates_per_run := 2, num_benchmark_runs := 1 }
       timings := { warmup_time := 1, loop_times := none, per_iter_times := none,
                    mean_loop_time := 3, mean_per_iter_time := 3 / 2,
                    std_loop_time_sq := 0, std_per_iter_time_sq := 0 }
       error := none
       metadata := { package_name := "NumbaCS", case_id := "dg_ftle",
                     case_description := "Double Gyre FTLE",
                     case_flow_type := "predefined" } } : ResultDoc).timings.std_per_iter_time_sq
      = 0 :=
  ((c3_single_run_std_zero ["flow_str", "grid_shape", "t0", "T", "dt0"] "double_gyre"
    2 1 8 none
    { package_name := "NumbaCS", case_id := "dg_ftle",
      case_description := "Double Gyre FTLE", case_flow_type := "predefined" }
    1 (fun _ => 3) rfl).1 _ (by rfl)).1

/-- Claim C4: for every cell with `num_benchmark_runs > 1` (and a valid
`iterates_per_run ≥ 1`; for a zero divisor the numpy array division yields
non-finite floats outside this rational model), every produced
ResultDocument reports: per-iterate samples = one sample per outer repeat,
each that repeat's once-measured wall-clock duration divided by
iterates-per-run; exactly `num_benchmark_runs` samples;
`mean_per_iter_time` = their arithmetic mean; and `std_per_iter_time` =
their population standard deviation (stated on the stored square: the
square of the reported std equals the population variance). -/
theorem c4_multi_run_stats (flow_keys : List String) (flow_str : String)
    (iterates_per_run num_benchmark_runs num_threads : ℤ)
    (error_data : Option ErrorData) (metadata : Metadata)
    (warmup_time : ℚ) (loop_duration : ℕ → ℚ)
    (h : 1 < num_benchmark_runs) (hipr : 1 ≤ iterates_per_run) :
    (∀ doc, run_numbacs_predefined_ftle flow_keys iterates_per_run num_benchmark_runs
        error_data metadata warmup_time loop_duration = .ok doc →
      doc.timings.per_iter_times
          = some (specPerIterateSamples iterates_per_run num_benchmark_runs loop_duration)
        ∧ (specPerIterateSamples iterates_per_run num_benchmark_runs loop_duration).length
          = num_benchmark_runs.toNat
        ∧ doc.timings.mean_per_iter_time
          = specArithmeticMean
              (specPerIterateSamples iterates_per_run num_benchmark_runs loop_duration)
        ∧ doc.timings.std_per_iter_time_sq
          = specPopVariance
              (specPerIterateSamples iterates_per_run num_benchmark_runs loop_duration))
    ∧ (∀ doc, run_numbacs_data_ftle flow_keys iterates_per_run num_benchmark_runs
        error_data metadata warmup_time loop_duration = .ok doc →
      doc.timings.per_iter_times
          = some (specPerIterateSamples iterates_per_run num_benchmark_runs loop_duration)
        ∧ doc.timings.mean_per_iter_time
          = specArithmeticMean
              (specPerIterateSamples iterates_per_run num_benchmark_runs loop_duration)
        ∧ doc.timings.std_per_iter_time_sq
          = specPopVariance
              (specPerIterateSamples iterates_per_run num_benchmark_runs loop_duration))
    ∧ (∀ doc, run_dynlab_ftle flow_keys flow_str iterates_per_run num_benchmark_runs
        num_threads error_data metadata warmup_time loop_duration = .ok doc →
      doc.timings.per_iter_times
          = some (specPerIterateSamples iterates_per_run num_benchmark_runs loop_duration)
        ∧ doc.timings.mean_per_iter_time
          = specArithmeticMean
              (specPerIterateSamples iterates_per_run num_benchmark_runs loop_duration)
        ∧ doc.timings.std_per_iter_time_sq
          = specPopVariance
              (specPerIterateSamples iterates_per_run num_benchmark_runs loop_duration)) := by
  have hsamples : ((List.range num_benchmark_runs.toNat).map loop_duration).map
      (fun t => t / (iterates_per_run : ℚ))
      = specPerIterateSamples iterates_per_run num_benchmark_runs loop_duration := by
    simp [specPerIterateSamples, List.map_map, Function.comp]
  have hcore : ∀ doc, ftle_benchmark_core iterates_per_run num_benchmark_runs error_data
      metadata warmup_time loop_duration = .ok doc →
      doc.timings.per_iter_times
          = some (specPerIterateSamples iterates_per_run num_benchmark_runs loop_duration)
        ∧ (specPerIterateSamples iterates_per_run num_benchmark_runs loop_duration).length
          = num_benchmark_runs.toNat
        ∧ doc.timings.mean_per_iter_time
          = specArithmeticMean
              (specPerIterateSamples iterates_per_run num_benchmark_runs loop_duration)
        ∧ doc.timings.std_per_iter_time_sq
          = specPopVariance
              (specPerIterateSamples iterates_per_run num_benchmark_runs loop_duration) := by
    intro doc hdoc
    rw [ftle_benchmark_core_multi _ _ _ _ _ _ h] at hdoc
    injection hdoc with hdoc
    subst hdoc
    refine ⟨by rw [hsamples], by simp [specPerIterateSamples], ?_, ?_⟩
    · show npMean _ = _
      rw [hsamples]
      rfl
    · show npVarP _ = _
      rw [hsamples]
      rfl
  refine ⟨fun doc hdoc => ?_, fun doc hdoc => ?_, fun doc hdoc => ?_⟩
  · unfold run_numbacs_predefined_ftle at hdoc
    split at hdoc
    · exact Except.noConfusion hdoc
    · exact hcore doc hdoc
  · unfold run_numbacs_data_ftle at hdoc
    split at hdoc
    · exact Except.noConfusion hdoc
    · exact (hcore doc hdoc).imp id (fun p => ⟨p.2.1, p.2.2⟩)
  · unfold run_dynlab_ftle at hdoc
    split at hdoc
    · exact Except.noConfusion hdoc
    · split at hdoc
      · exact Except.noConfusion hdoc
      · exact (hcore doc hdoc).imp id (fun p => ⟨p.2.1, p.2.2⟩)

/-- Witness for `c4_multi_run_stats`: a concrete two-run numbacs invocation
(both durations 3, five iterates per run). -/
theorem c4_witness :
    ({ parameters := { iterates_per_run := 5, num_benchmark_runs := 2 }
       timings := { warmup_time := 1, loop_times := some [3, 3],
                    per_iter_times := some [3 / 5, 3 / 5],
                    mean_loop_time := 3, mean_per_iter_time := 3 / 5,
                    std_loop_time_sq := 0, std_per_iter_time_sq := 0 }
       error := none
       metadata := { package_name := "NumbaCS", case_id := "dg_ftle",
                     case_description := "Double Gyre FTLE",
                     case_flow_type := "predefined" } } : ResultDoc).timings.per_iter_times
      = some (specPerIterateSamples 5 2 fun _ => (3 : ℚ)) := by
  have hrun : run_numbacs_predefined_ftle ["flow_str", "grid_shape", "t0", "T", "dt0"]
      5 2 none
      { package_name := "NumbaCS", case_id := "dg_ftle",
        case_description := "Double Gyre FTLE", case_flow_type := "predefined" }
      1 (fun _ => (3 : ℚ))
      = Except.ok
        { parameters := { iterates_per_run := 5, num_benchmark_runs := 2 }
          timings := { warmup_time := 1, loop_times := some [3, 3],
                       per_iter_times := some [3 / 5, 3 / 5],
                       mean_loop_time := 3, mean_per_iter_time := 3 / 5,
                       std_loop_time_sq := 0, std_per_iter_time_sq := 0 }
          error := none
          metadata := { package_name := "NumbaCS", case_id := "dg_ftle",
                        case_description := "Double Gyre FTLE",
                        case_flow_type := "predefined" } } := by
    simp only [run_numbacs_predefined_ftle, ftle_benchmark_core, keysSubset,
      req_keys_numbacs_predefined]
    norm_num [List.range_succ, npMean, npVarP]
    exact ⟨rfl, rfl⟩
  exact ((c4_multi_run_stats ["flow_str", "grid_shape", "t0", "T", "dt0"] "double_gyre"
    5 2 8 none
    { package_name := "NumbaCS", case_id := "dg_ftle",
      case_description := "Double Gyre FTLE", case_flow_type := "predefined" }
    1 (fun _ => (3 : ℚ)) (by decide) (by decide)).1 _ hrun).1

theorem speedup_col_fmt_npDiv (B m : ℚ) (hB : 0 < B) :
    speedup_col_fmt (npDiv B m) =
      (if m = 0 then "inf"
       else if 1 ≤ B / m then pyFixed2 (B / m)
       else if 0 < B / m then "(" ++ pyFixed2 (m / B) ++ ")⁻¹"
       else "N/A") := by
  by_cases hm : m = 0
  · subst hm
    simp [npDiv, hB, speedup_col_fmt, pd_notnull, pfGe1, pyFormat2f]
  · rw [if_neg hm]
    have hdiv : npDiv B m = .fin (B / m) := by simp [npDiv, hm]
    rw [hdiv]
    by_cases h1 : 1 ≤ B / m
    · simp [speedup_col_fmt, pd_notnull, pfGe1, pyFormat2f, h1]
    · by_cases h0 : 0 < B / m
      · have hrec : pfRecip (.fin (B / m)) = .fin (m / B) := by
          have : (B / m)⁻¹ = m / B := by
            rw [inv_div]
          simp [pfRecip, npDiv, ne_of_gt h0, one_div, this]
        simp [speedup_col_fmt, pd_notnull, pfGe1, pfBetween01, pyFormat2f, h1, h0,
          lt_of_not_le h1, hrec]
      · simp [speedup_col_fmt, pd_notnull, pfGe1, pfBetween01, pyFormat2f, h1, h0]

/-- Claim C5, as stated, is FALSE on the code for a zero candidate mean: the
float64 ratio `baseline/0` is `+inf` (not NaN), `pd.notnull(inf)` holds and
`inf >= 1.0` holds, so `_speedup_col_fmt` renders `f"{inf:.2f}" = "inf"`,
not `"N/A"`.  Concretely: baseline mean 1.0, candidate mean 0.0 renders
`["1.00", "inf"]`. -/
theorem c5_counterexample :
    speedup_column
        [{ package := "NumbaCS", case_id := "dg_ftle", case_description := "DG",
           iterates_per_run := 50, num_benchmark_runs := 3, mean_iter_s := 1,
           std_iter_s := none, mae := none },
         { package := "Dynlab", case_id := "dg_ftle", case_description := "DG",
           iterates_per_run := 50, num_benchmark_runs := 3, mean_iter_s := 0,
           std_iter_s := none, mae := none }]
      = ["1.00", "inf"] := by
  norm_num [speedup_column, speedup_values, SPEEDUP_BASELINE_PACKAGE, List.find?,
    npDiv, speedup_col_fmt, pd_notnull, pfGe1, pyFormat2f, pyFixed2, roundHalfEven, padTwo]
  decide

/-- Claim C5 (amended): per case group the speedup cell for record `r` is
`baseline_mean / r.mean`, rendered with two decimals when the ratio is
`≥ 1.0`, as the inverse-tagged reciprocal when the ratio is in `(0, 1)`,
and `"N/A"` when the baseline record is absent, when the baseline mean is
non-positive, or when the ratio is negative; a candidate mean of exactly 0
(with a positive baseline mean) renders `"inf"` — the formatted infinite
float64 ratio — NOT `"N/A"`. -/
theorem c5_speedup_format (group : List AggRecord) :
    (group.find? (fun r => r.package == SPEEDUP_BASELINE_PACKAGE) = none →
      speedup_column group = group.map fun _ => "N/A")
    ∧ (∀ b, group.find? (fun r => r.package == SPEEDUP_BASELINE_PACKAGE) = some b →
        b.mean_iter_s ≤ 0 →
      speedup_column group = group.map fun _ => "N/A")
    ∧ (∀ b, group.find? (fun r => r.package == SPEEDUP_BASELINE_PACKAGE) = some b →
        0 < b.mean_iter_s →
      speedup_column group = group.map fun r =>
        if r.mean_iter_s = 0 then "inf"
        else if 1 ≤ b.mean_iter_s / r.mean_iter_s then
          pyFixed2 (b.mean_iter_s / r.mean_iter_s)
        else if 0 < b.mean_iter_s / r.mean_iter_s then
          "(" ++ pyFixed2 (r.mean_iter_s / b.mean_iter_s) ++ ")⁻¹"
        else "N/A") := by
  refine ⟨fun hnone => ?_, fun b hb hle => ?_, fun b hb hpos => ?_⟩
  · unfold speedup_column speedup_values
    rw [hnone, List.map_map]
    rfl
  · unfold speedup_column speedup_values
    rw [hb]
    dsimp only
    rw [if_neg (not_lt.mpr hle), List.map_map]
    rfl
  · unfold speedup_column speedup_values
    rw [hb]
    dsimp only
    rw [if_pos hpos, List.map_map]
    refine List.map_congr_left fun r _ => ?_
    exact speedup_col_fmt_npDiv b.mean_iter_s r.mean_iter_s hpos

/-- Witness for `c5_speedup_format`: a group with no baseline record renders
`"N/A"`. -/
theorem c5_witness :
    speedup_column
        [{ package := "Dynlab", case_id := "dg_ftle", case_description := "DG",
           iterates_per_run := 50, num_benchmark_runs := 3, mean_iter_s := 2,
           std_iter_s := none, mae := none }] = ["N/A"] := by
  have h := (c5_speedup_format
    [{ package := "Dynlab", case_id := "dg_ftle", case_description := "DG",
       iterates_per_run := 50, num_benchmark_runs := 3, mean_iter_s := 2,
       std_iter_s := none, mae := none }]).1 rfl
  simpa using h

/-- Claim C6, as stated, is FALSE on the code: the std column also requires
the representative record's `num_benchmark_runs > 1` (line 104:
`if num_b_runs > 1 and ... and group['std_iter_s'].notna().any()`).  A
group whose single record HAS a std value (0.0, from a one-run cell) still
gets no std column. -/
theorem c6_counterexample :
    ("Std /Iter (s)" ∉ table_columns
        [{ package := "NumbaCS", case_id := "dg_ftle", case_description := "DG",
           iterates_per_run := 50, num_benchmark_runs := 1, mean_iter_s := 5,
           std_iter_s := some 0, mae := none }])
    ∧ (List.any
        [{ package := "NumbaCS", case_id := "dg_ftle", case_description := "DG",
           iterates_per_run := 50, num_benchmark_runs := 1, mean_iter_s := 5,
           std_iter_s := some 0, mae := none }]
        fun r : AggRecord => r.std_iter_s.isSome) = true := by
  constructor
  · intro h
    simp only [table_columns, List.any_cons, List.any_nil] at h
    revert h
    decide
  · decide

/-- Claim C6 (amended): the std-per-iterate-time column is present iff the
group's representative (first) record has `num_benchmark_runs > 1` AND at
least one record in the group has a std value — presence is NOT decided
from data availability alone. -/
theorem c6_std_column (g0 : AggRecord) (gs : List AggRecord) :
    "Std /Iter (s)" ∈ table_columns (g0 :: gs)
      ↔ 1 < g0.num_benchmark_runs
        ∧ ∃ r ∈ g0 :: gs, r.std_iter_s.isSome := by
  have hrest : "Std /Iter (s)" ∉ ["Package", "Mean /Iter (s)"] ++ ([] : List String)
      ++ [speedup_col_name]
      ++ (if (g0 :: gs).any (fun r => r.mae.isSome) then ["MAE"] else []) := by
    intro hc
    rw [List.mem_append] at hc
    rcases hc with hc | hc
    · rw [List.mem_append] at hc
      rcases hc with hc | hc
      · simp at hc
      · simp [speedup_col_name, SPEEDUP_BASELINE_PACKAGE] at hc
    · by_cases hmae : ((g0 :: gs).any fun r => r.mae.isSome) = true
      · rw [if_pos hmae] at hc
        simp at hc
      · rw [if_neg hmae] at hc
        exact List.not_mem_nil _ hc
  by_cases h : (decide (g0.num_benchmark_runs > 1)
      && (g0 :: gs).any fun r => r.std_iter_s.isSome) = true
  · have hp := h
    rw [Bool.and_eq_true, decide_eq_true_eq, List.any_eq_true] at hp
    refine iff_of_true ?_ ⟨hp.1, hp.2⟩
    simp only [table_columns, h, if_true]
    simp
  · have hcond : (decide (g0.num_benchmark_runs > 1)
        && (g0 :: gs).any fun r => r.std_iter_s.isSome) = false :=
      Bool.eq_false_iff.mpr h
    refine iff_of_false ?_ fun hc => h ?_
    · simp only [table_columns, hcond, if_false]
      exact hrest
    · rw [Bool.and_eq_true, decide_eq_true_eq, List.any_eq_true]
      exact ⟨hc.1, hc.2⟩

theorem splitAtFirst_eq (needle : List Char) :
    ∀ hay pre post, splitAtFirst needle hay = some (pre, post) →
      hay = pre ++ needle ++ post := by
  intro hay
  induction hay with
  | nil =>
    intro pre post h
    unfold splitAtFirst at h
    split at h
    · rename_i hpre
      have hn : needle = [] := List.prefix_nil.mp (List.isPrefixOf_iff_prefix.mp hpre)
      injection h with h
      injection h with h1 h2
      subst h1 h2
      simp [hn]
    · exact Option.noConfusion h
  | cons c rest ih =>
    intro pre post h
    unfold splitAtFirst at h
    split at h
    · rename_i hpre
      obtain ⟨t, ht⟩ := List.isPrefixOf_iff_prefix.mp hpre
      injection h with h
      injection h with h1 h2
      subst h1 h2
      rw [← ht, List.drop_left]
      simp
    · rw [Option.map_eq_some'] at h
      obtain ⟨pq, hpq, heq⟩ := h
      obtain ⟨p, q⟩ := pq
      injection heq with h1 h2
      subst h1 h2
      have := ih p q hpq
      simp [this]

theorem findMarkers_eq (text pre mid post : List Char)
    (h : findMarkers text = some (pre, mid, post)) :
    text = pre ++ BENCHMARK_SECTION_START_PLACEHOLDER ++ mid
      ++ BENCHMARK_SECTION_END_PLACEHOLDER ++ post := by
  unfold findMarkers at h
  split at h
  · exact Option.noConfusion h
  · rename_i pre' rest hsplit1
    split at h
    · exact Option.noConfusion h
    · rename_i mid' post' hsplit2
      injection h with h
      have h1 : pre = pre' := (congrArg Prod.fst h).symm
      have h2 : mid = mid' := (congrArg (fun p => p.2.1) h).symm
      have h3 : post = post' := (congrArg (fun p => p.2.2) h).symm
      subst h1 h2 h3
      have e1 := splitAtFirst_eq _ _ _ _ hsplit1
      have e2 := splitAtFirst_eq _ _ _ _ hsplit2
      rw [e1, e2]
      simp

/-- Claim C7: report splicing is idempotent on an unchanged result set —
whenever the recomputed combined block (`"\n\n" ++ content.strip() ++
"\n\n"` between the two markers) is byte-identical to what currently stands
between the host document's markers, `assemble_and_update_readme` leaves
the document untouched, performs no write (the `false` flag: the
`updated_readme_text != readme_text` branch is not taken, Python prints
"No changes needed"), and returns success.  In particular a second run
right after any successful splice is a no-op on a byte-identical document. -/
theorem c7_splice_idempotent (doc content pre post : List Char)
    (h : findMarkers doc
      = some (pre, "\n\n".data ++ pyStrip content ++ "\n\n".data, post)) :
    assemble_and_update_readme doc content = .ok (doc, false) := by
  have hdoc := findMarkers_eq _ _ _ _ h
  unfold assemble_and_update_readme
  rw [h]
  have hupdated : pre ++ (BENCHMARK_SECTION_START_PLACEHOLDER ++ "\n\n".data
      ++ pyStrip content ++ "\n\n".data ++ BENCHMARK_SECTION_END_PLACEHOLDER) ++ post
      = doc := by
    rw [hdoc]
    simp
  dsimp only
  rw [if_pos hupdated]

/-- Witness for `c7_splice_idempotent`: a concrete README whose block
already equals the recomputed content, left untouched with no write. -/
theorem c7_witness :
    assemble_and_update_readme
        ("# T\n<!-- BENCHMARK_RESULTS_START -->\n\nhello\n\n<!-- BENCHMARK_RESULTS_END -->\nZ".data)
        "hello".data
      = .ok
        (("# T\n<!-- BENCHMARK_RESULTS_START -->\n\nhello\n\n<!-- BENCHMARK_RESULTS_END -->\nZ".data),
         false) :=
  c7_splice_idempotent _ _ "# T\n".data "\nZ".data (by decide)

/-- Claim C8: for every external-interpreter cell that creates the
temporary on-disk config file (environment set and a MATLAB script
mapped), the file is removed on every exit path — subprocess success,
raised exception, and timeout alike — because the dispatch runs inside
`try` and the removal in `finally`.  (A cell that is skipped never creates
the file, so no cell ever leaves it behind.) -/
theorem c8_tmp_config_removed (lcstool_path_set matlab_script_mapped : Bool)
    (outcome : RunOutcome) :
    (benchmark_session_lcstool lcstool_path_set matlab_script_mapped outcome).2.cfg_exists
      = false := by
  unfold benchmark_session_lcstool
  cases lcstool_path_set with
  | false => rfl
  | true =>
    cases matlab_script_mapped with
    | false => rfl
    | true =>
      cases outcome <;> rfl

/-- Claim C9: for every command-line invocation of the MATLAB runner, the
subprocess timeout is `200 * iterates_per_run * num_benchmark_runs + 300`
seconds, with the two counts read from the config file; the parsed
`--expected_iter_time` flag is never forwarded to `run_matlab_benchmark`
(the call passes only script, config path and executable), so its value
has no effect on the timeout or on anything else. -/
theorem c9_matlab_timeout (args : MatlabArgs) (cfg : MatlabRunConfig) :
    (matlab_runner_main args cfg).timeout_seconds
        = 200 * (cfg.iterates_per_run : ℚ) * (cfg.num_benchmark_runs : ℚ) + 300
      ∧ (∀ e : ℚ, matlab_runner_main { args with expected_iter_time := e } cfg
        = matlab_runner_main args cfg) := by
  exact ⟨rfl, fun _ => rfl⟩

/-- Claim C10: a recovered ErrorDocument is written to the same
`{package}_{case}_results.json` path the ResultDocument would use
(`numbacs_error_output_path (some p) = p` with `p` the intended output
path), a name that matches the aggregator's `*_results.json` glob and
carries no `"_error"` marker; the aggregator reaches its per-file parsing,
which fails on the ErrorDocument schema (no `"metadata"` key — a KeyError
caught by the per-file handler), so exactly that file is skipped while all
other files aggregate normally. -/
theorem c10_error_doc_aggregation (fname : String) (errDoc : JVal)
    (before after : List (String × JVal))
    (hglob : resultsGlobMatch fname = true)
    (hname : listContainsSub (lowerData fname) "_error".data = false)
    (hschema : errDoc.lookup "metadata" = none) :
    parseRecord errDoc = .error "KeyError: metadata"
    ∧ load_benchmark_data (before ++ (fname, errDoc) :: after)
        = load_benchmark_data before ++ load_benchmark_data after
    ∧ (∀ p : String, numbacs_error_output_path (some p) = p) := by
  have hparse : parseRecord errDoc = .error "KeyError: metadata" := by
    unfold parseRecord getField
    rw [hschema]
    rfl
  refine ⟨hparse, ?_, fun _ => rfl⟩
  unfold load_benchmark_data
  rw [List.filter_append, List.filterMap_append]
  congr 1
  rw [List.filter_cons_of_pos (by simpa using hglob)]
  rw [List.filterMap_cons]
  simp only [hname, Bool.false_eq_true, if_false, hparse]
  rfl

/-- Witness for `c10_error_doc_aggregation`: the concrete numbacs error
document at its recovered `numbacs_dg_ftle_results.json` path, next to one
valid result file. -/
theorem c10_witness :
    load_benchmark_data
        [(noxfile_output_filename "NumbaCS" "dg_ftle",
          JVal.jobj [("package", .jstr "NumbaCS"),
                     ("error", .jstr "ValueError: num_benchmark_runs must be at least 1"),
                     ("run_config_json_str_received", .jstr "...")]),
         ("dynlab_dg_ftle_results.json",
          JVal.jobj [("metadata", .jobj [("package_name", .jstr "Dynlab"),
                                         ("case_id", .jstr "dg_ftle")]),
                     ("parameters", .jobj [("iterates_per_run", .jnum 50),
                                           ("num_benchmark_runs", .jnum 3)]),
                     ("timings", .jobj [("mean_per_iter_time", .jnum 2),
                                        ("std_per_iter_time", .jnum 1)])])]
      = load_benchmark_data []
        ++ load_benchmark_data
          [("dynlab_dg_ftle_results.json",
            JVal.jobj [("metadata", .jobj [("package_name", .jstr "Dynlab"),
                                           ("case_id", .jstr "dg_ftle")]),
                       ("parameters", .jobj [("iterates_per_run", .jnum 50),
                                             ("num_benchmark_runs", .jnum 3)]),
                       ("timings", .jobj [("mean_per_iter_time", .jnum 2),
                                          ("std_per_iter_time", .jnum 1)])])] :=
  (c10_error_doc_aggregation (noxfile_output_filename "NumbaCS" "dg_ftle")
    (JVal.jobj [("package", .jstr "NumbaCS"),
                ("error", .jstr "ValueError: num_benchmark_runs must be at least 1"),
                ("run_config_json_str_received", .jstr "...")])
    [] _ (by decide) (by decide) (by rfl)).2.1

end CoherentBenchmarks
